import Mathlib
namespace Signals

/-! Signal-number constants (Linux x86-64 values, see signal(7)). -/

def SIGHUP : Nat := 1
def SIGINT : Nat := 2
def SIGILL : Nat := 4
def SIGBUS : Nat := 7
def SIGFPE : Nat := 8
def SIGKILL : Nat := 9
def SIGUSR1 : Nat := 10
def SIGSEGV : Nat := 11
def SIGUSR2 : Nat := 12
def SIGTERM : Nat := 15
def SIGCHLD : Nat := 17
def SIGSTOP : Nat := 19

/-- Without `_WITH_JSON_`, `SIG_MAX` is `SIGCHLD` (line 70 of signals.c),
since `SIGCHLD > SIGUSR2` on every architecture except alpha and sparc. -/
def SIG_MAX : Nat := SIGCHLD

/-- Upper bound of the realtime signals; glibc on Linux has SIGRTMAX = 64. -/
def SIGRTMAX : Nat := 64

/-- Callback function pointers are modelled by their identity (a number);
`Option` models nullability of the stored pointer. -/
abbrev Callback := Nat

/-- Opaque `void *` context pointers, again modelled by identity. -/
abbrev VoidPtr := Nat

/-- OS-level disposition of one signal, i.e. the handler currently stored in
the kernel's sigaction for it: `SIG_IGN`, `SIG_DFL`, this subsystem's
trampoline `signal_handler`, or some other function. -/
inductive Disp where
  | ign
  | dfl
  | trampoline
  | other (f : Nat)
  deriving DecidableEq, Repr

/-- The whole state touched by signals.c: its globals plus the OS state it
drives through sigaction / sigprocmask / pipe / close. -/
structure SigState where
  /-- `static void (*signal_handler_func[SIG_MAX])(void *, int sig)`:
  0-based array, slot `signo - 1` belongs to signal `signo`. -/
  signal_handler_func : Nat → Option Callback
  /-- `static void *signal_v[SIG_MAX]` (0-based, parallel to the above). -/
  signal_v : Nat → Option VoidPtr
  /-- `static int signal_pipe[2]`: (read end, write end). -/
  signal_pipe : Int × Int
  /-- The signal numbers currently queued in the pipe, oldest first. -/
  pipe_buf : List Int
  /-- Whether both pipe ends are `O_NONBLOCK`. -/
  pipe_nonblock : Bool
  /-- Whether both pipe ends are `FD_CLOEXEC`. -/
  pipe_cloexec : Bool
  /-- `static sigset_t ign_sig`: signals whose original disposition was ignore. -/
  ign_sig : Nat → Bool
  /-- `static sigset_t dfl_sig`: signals originally at default, forced to ignore. -/
  dfl_sig : Nat → Bool
  /-- `static sigset_t parent_sig`: signals the parent installed a handler for. -/
  parent_sig : Nat → Bool
  /-- OS per-signal disposition, as set via sigaction. -/
  os_disp : Nat → Disp
  /-- Process signal mask, as set via sigprocmask. -/
  blocked : Nat → Bool
  /-- The set of open file descriptors of the process. -/
  open_fds : Int → Bool

/-- The `func` argument of `signal_set`: either one of the sentinels
`SIG_IGN` / `SIG_DFL` or an actual callback function pointer. -/
inductive FuncArg where
  | sig_ign
  | sig_dfl
  | handler (cb : Callback)
  deriving DecidableEq, Repr

/-- The return value of `signal_set`: `NULL` (invalid signal number),
`SIG_ERR` (sigaction failed), or the previous disposition. -/
inductive SetResult where
  | null
  | sig_err
  | prev (d : Disp)
  deriving DecidableEq, Repr

/-- The `sa_handler` stored into `sig` before calling sigaction (lines
157-167): the sentinels pass through, anything else installs the
trampoline. -/
def funcArg_sa_handler : FuncArg → Disp
  | .sig_ign => .ign
  | .sig_dfl => .dfl
  | .handler _ => .trampoline

/-- The value of the local `func` after the sentinel check (lines 157-165):
cleared to `NULL` on the `SIG_IGN` / `SIG_DFL` paths. -/
def funcArg_func : FuncArg → Option Callback
  | .handler cb => some cb
  | _ => none

/-- The value of the local `v` after the sentinel check: cleared to `NULL`
on the `SIG_IGN` / `SIG_DFL` paths. -/
def funcArg_v (f : FuncArg) (v : Option VoidPtr) : Option VoidPtr :=
  match f with
  | .handler _ => v
  | _ => none

/-- `signal_set` (signals.c lines 144-198).  `sigaction_fails` models the
result of the one fallible OS call, `ret = sigaction(signo, &sig, &osig)`. -/
def signal_set (signo : Int) (funcArg : FuncArg) (v : Option VoidPtr)
    (sigaction_fails : Bool) (st : SigState) : SetResult × SigState :=
  if signo < 1 ∨ signo > (SIG_MAX : Int) then
    (SetResult.null, st)
  else
    let sa_handler := funcArg_sa_handler funcArg
    let func := funcArg_func funcArg
    let v := funcArg_v funcArg v
    let sn : Nat := signo.toNat
    -- lines 175-183: block the signal being configured and remember it in
    -- parent_sig, but only when installing an actual handler
    let st1 :=
      if func.isSome then
        { st with
          blocked := fun s => if s = sn then true else st.blocked s,
          parent_sig := fun s => if s = sn then true else st.parent_sig s }
      else st
    let osig := st1.os_disp sn
    -- line 185: ret = sigaction(signo, &sig, &osig)
    let st2 :=
      if sigaction_fails then st1
      else { st1 with os_disp := fun s => if s = sn then sa_handler else st1.os_disp s }
    -- lines 187-188: the table is updated regardless of sigaction's result
    let st3 :=
      { st2 with
        signal_handler_func := fun i => if i = sn - 1 then func else st2.signal_handler_func i,
        signal_v := fun i => if i = sn - 1 then v else st2.signal_v i }
    if sigaction_fails then
      -- lines 190-191: return SIG_ERR without reaching the SIG_UNBLOCK
      (SetResult.sig_err, st3)
    else
      -- lines 194-195: release the signal
      let st4 :=
        if func.isSome then
          { st3 with blocked := fun s => if s = sn then false else st3.blocked s }
        else st3
      (SetResult.prev osig, st4)

/-- `signal_ignore` (lines 201-205). -/
def signal_ignore (signo : Int) (sigaction_fails : Bool) (st : SigState) :
    SetResult × SigState :=
  signal_set signo FuncArg.sig_ign none sigaction_fails st

/-- The trampoline `signal_handler` (lines 132-141): writes the signal
number into the pipe's write end.  The model covers the successful write;
the failure branch only logs. -/
def signal_handler (sig : Int) (st : SigState) : SigState :=
  { st with pipe_buf := st.pipe_buf ++ [sig] }

/-- One dispatched callback invocation: the callback that was called, the
context passed as its first argument and the signal number passed as its
second argument. -/
structure Invocation where
  cb : Callback
  ctx : Option VoidPtr
  sig : Int
  deriving DecidableEq, Repr

/-- The body of the drain loop of `signal_run_callback` (lines 366-369) for
one number read from the pipe: an invocation happens iff
`sig >= 1 && sig <= SIG_MAX && signal_handler_func[sig-1]`. -/
def run_callback_step (st : SigState) (sig : Int) : Option Invocation :=
  if 1 ≤ sig ∧ sig ≤ (SIG_MAX : Int) then
    match st.signal_handler_func (sig.toNat - 1) with
    | some cb => some ⟨cb, st.signal_v (sig.toNat - 1), sig⟩
    | none => none
  else none

/-- `signal_run_callback` (lines 361-370): drains the pipe, returning the
sequence of callback invocations it performs and the drained state. -/
def signal_run_callback (st : SigState) : List Invocation × SigState :=
  (st.pipe_buf.filterMap (run_callback_step st), { st with pipe_buf := [] })

/-- `open_signal_pipe` (lines 217-239): with `HAVE_PIPE2` the pipe is opened
with `O_CLOEXEC | O_NONBLOCK`.  The OS picks the two fresh descriptors, so
they are arguments of the model. -/
def open_signal_pipe (rfd wfd : Int) (st : SigState) : SigState :=
  { st with
    signal_pipe := (rfd, wfd),
    pipe_buf := [],
    pipe_nonblock := true,
    pipe_cloexec := true,
    open_fds := fun f => if f = rfd ∨ f = wfd then true else st.open_fds f }

/-- `clear_signal_handler_addresses` (lines 207-214): nulls the `SIG_MAX`
entries of `signal_handler_func`; note that `signal_v` is not touched. -/
def clear_signal_handler_addresses (st : SigState) : SigState :=
  { st with
    signal_handler_func := fun i => if i < SIG_MAX then none else st.signal_handler_func i }

/-- The state of `signal_handler_init` just before its capture loop: pipe
opened, table callbacks cleared, the three signal sets emptied
(lines 248-267). -/
def init_pre (rfd wfd : Int) (st : SigState) : SigState :=
  { clear_signal_handler_addresses (open_signal_pipe rfd wfd st) with
    ign_sig := fun _ => false,
    dfl_sig := fun _ => false,
    parent_sig := fun _ => false }

/-- Membership in the local `sset` of `signal_handler_init` (lines 253-259):
`sigfillset` followed by `sigdelset` of the six essential signals. -/
def sset_member (sig : Nat) : Bool :=
  !(sig = SIGILL || sig = SIGFPE || sig = SIGSEGV || sig = SIGBUS ||
    sig = SIGKILL || sig = SIGSTOP)

/-- One iteration of the capture loop of `signal_handler_init`
(lines 269-283). -/
def init_loop_body (st : SigState) (sig : Nat) : SigState :=
  if sset_member sig then
    if st.os_disp sig = Disp.ign then
      { st with ign_sig := fun s => if s = sig then true else st.ign_sig s }
    else
      { st with
        os_disp := fun s => if s = sig then Disp.ign else st.os_disp s,
        dfl_sig := fun s => if s = sig then true else st.dfl_sig s }
  else st

/-- `signal_handler_init` (lines 241-284). -/
def signal_handler_init (rfd wfd : Int) (st : SigState) : SigState :=
  let st1 := open_signal_pipe rfd wfd st
  let st2 := clear_signal_handler_addresses st1
  -- lines 265-267: sigemptyset of ign_sig, dfl_sig, parent_sig
  let st3 := { st2 with
    ign_sig := fun _ => false,
    dfl_sig := fun _ => false,
    parent_sig := fun _ => false }
  (List.range' 1 SIGRTMAX).foldl init_loop_body st3

/-- One iteration of the loop of `signal_handler_child_clear`
(lines 296-299). -/
def child_clear_loop_body (st : SigState) (sig : Nat) : SigState :=
  if st.parent_sig sig then
    { st with os_disp := fun s => if s = sig then Disp.ign else st.os_disp s }
  else st

/-- `signal_handler_child_clear` (lines 286-304). -/
def signal_handler_child_clear (rfd wfd : Int) (st : SigState) : SigState :=
  let st1 := (List.range' 1 SIGRTMAX).foldl child_clear_loop_body st
  let st2 := open_signal_pipe rfd wfd st1
  clear_signal_handler_addresses st2

/-- One iteration of the restore loop of `signal_handler_script`
(lines 346-351). -/
def script_loop_body (st : SigState) (sig : Nat) : SigState :=
  if st.ign_sig sig then
    { st with os_disp := fun s => if s = sig then Disp.ign else st.os_disp s }
  else if st.dfl_sig sig then
    { st with os_disp := fun s => if s = sig then Disp.dfl else st.os_disp s }
  else st

/-- `signal_handler_script` (lines 333-352). -/
def signal_handler_script (st : SigState) : SigState :=
  (List.range' 1 SIGRTMAX).foldl script_loop_body st

/-- `signal_handlers_clear` (lines 306-319): `signal_set` on the fixed
application signal set.  sigaction with `SIG_IGN` on these ordinary
catchable signals cannot fail, so the model takes the success path. -/
def signal_handlers_clear (stArg : FuncArg) (st : SigState) : SigState :=
  let st1 := (signal_set (SIGHUP : Nat) stArg none false st).2
  let st2 := (signal_set (SIGINT : Nat) stArg none false st1).2
  let st3 := (signal_set (SIGTERM : Nat) stArg none false st2).2
  let st4 := (signal_set (SIGCHLD : Nat) stArg none false st3).2
  let st5 := (signal_set (SIGUSR1 : Nat) stArg none false st4).2
  (signal_set (SIGUSR2 : Nat) stArg none false st5).2

/-- A `close(fd)` call: removes the descriptor from the open set. -/
def close_fd (fd : Int) (st : SigState) : SigState :=
  { st with open_fds := fun f => if f = fd then false else st.open_fds f }

/-- `signal_handler_destroy` (lines 321-329). -/
def signal_handler_destroy (st : SigState) : SigState :=
  let st1 := signal_handlers_clear FuncArg.sig_ign st
  let st2 := close_fd st1.signal_pipe.2 st1
  let st3 := close_fd st2.signal_pipe.1 st2
  { st3 with signal_pipe := (-1, -1) }

/-- `signal_rfd` (lines 354-358). -/
def signal_rfd (st : SigState) : Int :=
  st.signal_pipe.1

/-- `signal_pipe_close` (lines 372-378): note the C truthiness test
`if (signal_pipe[i] && signal_pipe[i] >= min_fd)`, so a descriptor whose
numeric value is 0 is never closed. -/
def signal_pipe_close (min_fd : Int) (st : SigState) : SigState :=
  let st1 :=
    if st.signal_pipe.1 ≠ 0 ∧ st.signal_pipe.1 ≥ min_fd then
      close_fd st.signal_pipe.1 st
    else st
  if st1.signal_pipe.2 ≠ 0 ∧ st1.signal_pipe.2 ≥ min_fd then
    close_fd st1.signal_pipe.2 st1
  else st1

/-- Delivering signal `n` a total of `k` times: `k` executions of the
trampoline before dispatch runs. -/
def deliver_k (n : Int) (k : Nat) (st : SigState) : SigState :=
  match k with
  | 0 => st
  | k + 1 => signal_handler n (deliver_k n k st)

/-- An install / ignore call, as allowed between init and the pre-exec
restore in claim C6; `sigaction_fails` is per-call. -/
inductive RegOp where
  | set (signo : Int) (f : FuncArg) (v : Option VoidPtr) (sigaction_fails : Bool)
  | ignore (signo : Int) (sigaction_fails : Bool)
  deriving Repr

def run_reg_op (st : SigState) (op : RegOp) : SigState :=
  match op with
  | .set signo f v fl => (signal_set signo f v fl st).2
  | .ignore signo fl => (signal_ignore signo fl st).2

/-- An operation of the subsystem after initialization, with every
underlying sigaction call succeeding (claim C3's amended setting). -/
inductive SysOp where
  | set (signo : Int) (f : FuncArg) (v : Option VoidPtr)
  | ignore (signo : Int)
  | child_clear (rfd wfd : Int)
  | destroy
  deriving Repr

def run_sys_op (st : SigState) (op : SysOp) : SigState :=
  match op with
  | .set signo f v => (signal_set signo f v false st).2
  | .ignore signo => (signal_ignore signo false st).2
  | .child_clear rfd wfd => signal_handler_child_clear rfd wfd st
  | .destroy => signal_handler_destroy st

/-- The spec's registration-table invariant: a slot's callback is non-null
iff the OS disposition of that signal is the subsystem's trampoline. -/
def TableInvariant (st : SigState) : Prop :=
  ∀ s, s ≤ SIG_MAX → 1 ≤ s →
    ((st.signal_handler_func (s - 1)).isSome ↔ st.os_disp s = Disp.trampoline)

/-- Auxiliary invariant: every signal with a registered callback was
recorded in `parent_sig`. -/
def ParentInvariant (st : SigState) : Prop :=
  ∀ s, s ≤ SIG_MAX → 1 ≤ s →
    (st.signal_handler_func (s - 1)).isSome → st.parent_sig s = true

def StateOk (st : SigState) : Prop :=
  TableInvariant st ∧ ParentInvariant st

/-- A pristine process state: empty table, no pipe, all dispositions at
default, nothing blocked, no descriptors open. -/
def initial_state : SigState :=
  { signal_handler_func := fun _ => none
    signal_v := fun _ => none
    signal_pipe := (-1, -1)
    pipe_buf := []
    pipe_nonblock := false
    pipe_cloexec := false
    ign_sig := fun _ => false
    dfl_sig := fun _ => false
    parent_sig := fun _ => false
    os_disp := fun _ => Disp.dfl
    blocked := fun _ => false
    open_fds := fun _ => false }

/-- A state with a handler (callback 2, context 9) registered for signal 5. -/
def reg_state : SigState :=
  (signal_set 5 (FuncArg.handler 2) (some 9) false initial_state).2

/-- A state with a handler (callback 1, context 7) registered for signal 3,
used to exhibit the stale context left behind by child-clear. -/
def stale_ctx_state : SigState :=
  (signal_set 3 (FuncArg.handler 1) (some 7) false initial_state).2

/-- A state whose pipe read end is descriptor 0 (a perfectly legal file
descriptor number), with both pipe descriptors open. -/
def zero_fd_state : SigState :=
  { initial_state with
    signal_pipe := (0, 3),
    open_fds := fun f => if f = 0 ∨ f = 3 then true else false }

/-- The state reached by `signal_handler_init` from the pristine state. -/
def c3_base : SigState := signal_handler_init 3 4 initial_state


/-! Characterization of `signal_set`. -/

theorem signal_set_out_of_range (signo : Int) (f : FuncArg) (v : Option VoidPtr)
    (fails : Bool) (st : SigState) (h : signo < 1 ∨ signo > (SIG_MAX : Int)) :
    signal_set signo f v fails st = (SetResult.null, st) := by
  unfold signal_set
  rw [if_pos h]

theorem signal_set_handler_ok (signo : Int) (cb : Callback) (v : Option VoidPtr)
    (st : SigState) (h1 : 1 ≤ signo) (h2 : signo ≤ (SIG_MAX : Int)) :
    signal_set signo (FuncArg.handler cb) v false st =
      (SetResult.prev (st.os_disp signo.toNat),
       { st with
         signal_handler_func :=
           fun i => if i = signo.toNat - 1 then some cb else st.signal_handler_func i,
         signal_v := fun i => if i = signo.toNat - 1 then v else st.signal_v i,
         os_disp := fun s => if s = signo.toNat then Disp.trampoline else st.os_disp s,
         parent_sig := fun s => if s = signo.toNat then true else st.parent_sig s,
         blocked := fun s => if s = signo.toNat then false
                             else if s = signo.toNat then true else st.blocked s }) := by
  have hv : ¬(signo < 1 ∨ signo > (SIG_MAX : Int)) := by push_neg; exact ⟨h1, h2⟩
  unfold signal_set
  rw [if_neg hv]
  rfl

theorem signal_set_handler_err (signo : Int) (cb : Callback) (v : Option VoidPtr)
    (st : SigState) (h1 : 1 ≤ signo) (h2 : signo ≤ (SIG_MAX : Int)) :
    signal_set signo (FuncArg.handler cb) v true st =
      (SetResult.sig_err,
       { st with
         signal_handler_func :=
           fun i => if i = signo.toNat - 1 then some cb else st.signal_handler_func i,
         signal_v := fun i => if i = signo.toNat - 1 then v else st.signal_v i,
         parent_sig := fun s => if s = signo.toNat then true else st.parent_sig s,
         blocked := fun s => if s = signo.toNat then true else st.blocked s }) := by
  have hv : ¬(signo < 1 ∨ signo > (SIG_MAX : Int)) := by push_neg; exact ⟨h1, h2⟩
  unfold signal_set
  rw [if_neg hv]
  rfl

theorem signal_set_ign_ok (signo : Int) (v : Option VoidPtr)
    (st : SigState) (h1 : 1 ≤ signo) (h2 : signo ≤ (SIG_MAX : Int)) :
    signal_set signo FuncArg.sig_ign v false st =
      (SetResult.prev (st.os_disp signo.toNat),
       { st with
         signal_handler_func :=
           fun i => if i = signo.toNat - 1 then none else st.signal_handler_func i,
         signal_v := fun i => if i = signo.toNat - 1 then none else st.signal_v i,
         os_disp := fun s => if s = signo.toNat then Disp.ign else st.os_disp s }) := by
  have hv : ¬(signo < 1 ∨ signo > (SIG_MAX : Int)) := by push_neg; exact ⟨h1, h2⟩
  unfold signal_set
  rw [if_neg hv]
  rfl

theorem signal_set_ign_err (signo : Int) (v : Option VoidPtr)
    (st : SigState) (h1 : 1 ≤ signo) (h2 : signo ≤ (SIG_MAX : Int)) :
    signal_set signo FuncArg.sig_ign v true st =
      (SetResult.sig_err,
       { st with
         signal_handler_func :=
           fun i => if i = signo.toNat - 1 then none else st.signal_handler_func i,
         signal_v := fun i => if i = signo.toNat - 1 then none else st.signal_v i }) := by
  have hv : ¬(signo < 1 ∨ signo > (SIG_MAX : Int)) := by push_neg; exact ⟨h1, h2⟩
  unfold signal_set
  rw [if_neg hv]
  rfl

theorem signal_set_dfl_ok (signo : Int) (v : Option VoidPtr)
    (st : SigState) (h1 : 1 ≤ signo) (h2 : signo ≤ (SIG_MAX : Int)) :
    signal_set signo FuncArg.sig_dfl v false st =
      (SetResult.prev (st.os_disp signo.toNat),
       { st with
         signal_handler_func :=
           fun i => if i = signo.toNat - 1 then none else st.signal_handler_func i,
         signal_v := fun i => if i = signo.toNat - 1 then none else st.signal_v i,
         os_disp := fun s => if s = signo.toNat then Disp.dfl else st.os_disp s }) := by
  have hv : ¬(signo < 1 ∨ signo > (SIG_MAX : Int)) := by push_neg; exact ⟨h1, h2⟩
  unfold signal_set
  rw [if_neg hv]
  rfl

theorem signal_set_dfl_err (signo : Int) (v : Option VoidPtr)
    (st : SigState) (h1 : 1 ≤ signo) (h2 : signo ≤ (SIG_MAX : Int)) :
    signal_set signo FuncArg.sig_dfl v true st =
      (SetResult.sig_err,
       { st with
         signal_handler_func :=
           fun i => if i = signo.toNat - 1 then none else st.signal_handler_func i,
         signal_v := fun i => if i = signo.toNat - 1 then none else st.signal_v i }) := by
  have hv : ¬(signo < 1 ∨ signo > (SIG_MAX : Int)) := by push_neg; exact ⟨h1, h2⟩
  unfold signal_set
  rw [if_neg hv]
  rfl

theorem signal_set_sets_frame (signo : Int) (f : FuncArg) (v : Option VoidPtr)
    (fails : Bool) (st : SigState) :
    (signal_set signo f v fails st).2.ign_sig = st.ign_sig ∧
    (signal_set signo f v fails st).2.dfl_sig = st.dfl_sig := by
  by_cases hr : signo < 1 ∨ signo > (SIG_MAX : Int)
  · rw [signal_set_out_of_range signo f v fails st hr]
    exact ⟨rfl, rfl⟩
  · unfold signal_set
    rw [if_neg hr]
    cases f <;> cases fails <;> exact ⟨rfl, rfl⟩

/-! Characterization of the three `for (sig = 1; sig <= SIGRTMAX; sig++)` loops. -/

theorem init_body_pres (st : SigState) (a : Nat) :
    (init_loop_body st a).signal_handler_func = st.signal_handler_func ∧
    (init_loop_body st a).parent_sig = st.parent_sig := by
  unfold init_loop_body
  split
  · split <;> exact ⟨rfl, rfl⟩
  · exact ⟨rfl, rfl⟩

theorem init_foldl_pres (l : List Nat) (st : SigState) :
    ((l.foldl init_loop_body st).signal_handler_func = st.signal_handler_func ∧
     (l.foldl init_loop_body st).parent_sig = st.parent_sig) := by
  induction l generalizing st with
  | nil => exact ⟨rfl, rfl⟩
  | cons a t ih =>
    have hb := init_body_pres st a
    have ht := ih (init_loop_body st a)
    exact ⟨ht.1.trans hb.1, ht.2.trans hb.2⟩

theorem init_body_other (st : SigState) (a s : Nat) (h : s ≠ a) :
    (init_loop_body st a).ign_sig s = st.ign_sig s ∧
    (init_loop_body st a).dfl_sig s = st.dfl_sig s ∧
    (init_loop_body st a).os_disp s = st.os_disp s := by
  unfold init_loop_body
  split
  · split
    · exact ⟨by simp [h], rfl, rfl⟩
    · exact ⟨rfl, by simp [h], by simp [h]⟩
  · exact ⟨rfl, rfl, rfl⟩

theorem init_foldl_untouched (l : List Nat) (st : SigState) (s : Nat) (h : s ∉ l) :
    (l.foldl init_loop_body st).ign_sig s = st.ign_sig s ∧
    (l.foldl init_loop_body st).dfl_sig s = st.dfl_sig s ∧
    (l.foldl init_loop_body st).os_disp s = st.os_disp s := by
  induction l generalizing st with
  | nil => exact ⟨rfl, rfl, rfl⟩
  | cons a t ih =>
    have hne : s ≠ a := by
      intro he
      exact h (he ▸ List.mem_cons_self a t)
    have hnt : s ∉ t := fun hm => h (List.mem_cons_of_mem a hm)
    have hb := init_body_other st a s hne
    have ht := ih (init_loop_body st a) hnt
    exact ⟨ht.1.trans hb.1, ht.2.1.trans hb.2.1, ht.2.2.trans hb.2.2⟩

theorem init_body_self (st : SigState) (s : Nat) :
    (init_loop_body st s).ign_sig s =
      (if sset_member s = true ∧ st.os_disp s = Disp.ign then true else st.ign_sig s) ∧
    (init_loop_body st s).dfl_sig s =
      (if sset_member s = true ∧ st.os_disp s ≠ Disp.ign then true else st.dfl_sig s) ∧
    (init_loop_body st s).os_disp s =
      (if sset_member s = true ∧ st.os_disp s ≠ Disp.ign then Disp.ign else st.os_disp s) := by
  by_cases hm : sset_member s = true <;> by_cases hd : st.os_disp s = Disp.ign <;>
    simp [init_loop_body, hm, hd]

theorem init_foldl_at (l : List Nat) (st : SigState) (s : Nat)
    (hmem : s ∈ l) (hnd : l.Nodup) :
    (l.foldl init_loop_body st).ign_sig s =
      (if sset_member s = true ∧ st.os_disp s = Disp.ign then true else st.ign_sig s) ∧
    (l.foldl init_loop_body st).dfl_sig s =
      (if sset_member s = true ∧ st.os_disp s ≠ Disp.ign then true else st.dfl_sig s) ∧
    (l.foldl init_loop_body st).os_disp s =
      (if sset_member s = true ∧ st.os_disp s ≠ Disp.ign then Disp.ign else st.os_disp s) := by
  induction l generalizing st with
  | nil => cases hmem
  | cons a t ih =>
    rw [List.nodup_cons] at hnd
    rw [List.foldl_cons]
    rcases List.mem_cons.mp hmem with he | hm
    · subst he
      have hu := init_foldl_untouched t (init_loop_body st s) s hnd.1
      have hb := init_body_self st s
      exact ⟨hu.1.trans hb.1, hu.2.1.trans hb.2.1, hu.2.2.trans hb.2.2⟩
    · have hne : s ≠ a := by
        rintro rfl
        exact hnd.1 hm
      have hb := init_body_other st a s hne
      have ht := ih (init_loop_body st a) hm hnd.2
      rw [hb.1, hb.2.1, hb.2.2] at ht
      exact ht

theorem child_body_pres (st : SigState) (a : Nat) :
    (child_clear_loop_body st a).signal_v = st.signal_v ∧
    (child_clear_loop_body st a).parent_sig = st.parent_sig := by
  unfold child_clear_loop_body
  split <;> exact ⟨rfl, rfl⟩

theorem child_foldl_pres (l : List Nat) (st : SigState) :
    (l.foldl child_clear_loop_body st).signal_v = st.signal_v ∧
    (l.foldl child_clear_loop_body st).parent_sig = st.parent_sig := by
  induction l generalizing st with
  | nil => exact ⟨rfl, rfl⟩
  | cons a t ih =>
    have hb := child_body_pres st a
    have ht := ih (child_clear_loop_body st a)
    exact ⟨ht.1.trans hb.1, ht.2.trans hb.2⟩

theorem child_body_disp (st : SigState) (a s : Nat) :
    (child_clear_loop_body st a).os_disp s =
      if s = a ∧ st.parent_sig a = true then Disp.ign else st.os_disp s := by
  by_cases hp : st.parent_sig a = true <;> by_cases hs : s = a <;>
    simp [child_clear_loop_body, hp, hs]

theorem child_foldl_disp (l : List Nat) (st : SigState) (s : Nat) :
    (l.foldl child_clear_loop_body st).os_disp s =
      if s ∈ l ∧ st.parent_sig s = true then Disp.ign else st.os_disp s := by
  induction l generalizing st with
  | nil => simp
  | cons a t ih =>
    rw [List.foldl_cons, ih, (child_body_pres st a).2, child_body_disp]
    by_cases hp : st.parent_sig s = true <;> by_cases hs : s = a <;>
      by_cases hm : s ∈ t <;> simp_all [List.mem_cons]

theorem script_body_pres (st : SigState) (a : Nat) :
    (script_loop_body st a).ign_sig = st.ign_sig ∧
    (script_loop_body st a).dfl_sig = st.dfl_sig := by
  unfold script_loop_body
  split
  · exact ⟨rfl, rfl⟩
  · split <;> exact ⟨rfl, rfl⟩

theorem script_body_disp (st : SigState) (a s : Nat) :
    (script_loop_body st a).os_disp s =
      if s = a then
        (if st.ign_sig a = true then Disp.ign
         else if st.dfl_sig a = true then Disp.dfl else st.os_disp s)
      else st.os_disp s := by
  by_cases hi : st.ign_sig a = true <;> by_cases hd : st.dfl_sig a = true <;>
    by_cases hs : s = a <;> simp [script_loop_body, hi, hd, hs]

theorem script_foldl_disp (l : List Nat) (st : SigState) (s : Nat) :
    (l.foldl script_loop_body st).os_disp s =
      if s ∈ l then
        (if st.ign_sig s = true then Disp.ign
         else if st.dfl_sig s = true then Disp.dfl else st.os_disp s)
      else st.os_disp s := by
  induction l generalizing st with
  | nil => simp
  | cons a t ih =>
    rw [List.foldl_cons, ih, (script_body_pres st a).1, (script_body_pres st a).2,
      script_body_disp]
    by_cases hi : st.ign_sig s = true <;> by_cases hd : st.dfl_sig s = true <;>
      by_cases hs : s = a <;> by_cases hm : s ∈ t <;> simp_all [List.mem_cons]

/-! Characterization of `signal_handler_init`. -/

theorem signal_handler_init_eq (rfd wfd : Int) (st : SigState) :
    signal_handler_init rfd wfd st =
      (List.range' 1 SIGRTMAX).foldl init_loop_body (init_pre rfd wfd st) := rfl

theorem mem_init_range (s : Nat) : s ∈ List.range' 1 SIGRTMAX ↔ 1 ≤ s ∧ s ≤ SIGRTMAX := by
  rw [List.mem_range'_1]
  constructor
  · rintro ⟨h1, h2⟩
    exact ⟨h1, by omega⟩
  · rintro ⟨h1, h2⟩
    exact ⟨h1, by omega⟩

theorem nodup_init_range : (List.range' 1 SIGRTMAX).Nodup := by
  simp [List.nodup_range']

theorem signal_handler_init_funcs (rfd wfd : Int) (st : SigState) (i : Nat) :
    (signal_handler_init rfd wfd st).signal_handler_func i =
      if i < SIG_MAX then none else st.signal_handler_func i := by
  rw [signal_handler_init_eq, (init_foldl_pres (List.range' 1 SIGRTMAX) (init_pre rfd wfd st)).1]
  rfl

theorem signal_handler_init_parent (rfd wfd : Int) (st : SigState) (s : Nat) :
    (signal_handler_init rfd wfd st).parent_sig s = false := by
  rw [signal_handler_init_eq, (init_foldl_pres (List.range' 1 SIGRTMAX) (init_pre rfd wfd st)).2]
  rfl

theorem signal_handler_init_ign (rfd wfd : Int) (st : SigState) (s : Nat) :
    (signal_handler_init rfd wfd st).ign_sig s = true ↔
      (1 ≤ s ∧ s ≤ SIGRTMAX ∧ sset_member s = true ∧ st.os_disp s = Disp.ign) := by
  rw [signal_handler_init_eq]
  have hdisp : (init_pre rfd wfd st).os_disp s = st.os_disp s := rfl
  have hign : (init_pre rfd wfd st).ign_sig s = false := rfl
  by_cases hmem : s ∈ List.range' 1 SIGRTMAX
  · have h := (init_foldl_at (List.range' 1 SIGRTMAX) (init_pre rfd wfd st) s hmem
      nodup_init_range).1
    rw [h, hdisp, hign]
    have hb := (mem_init_range s).mp hmem
    by_cases hc : sset_member s = true ∧ st.os_disp s = Disp.ign
    · rw [if_pos hc]
      simp only [true_iff]
      exact ⟨hb.1, hb.2, hc.1, hc.2⟩
    · rw [if_neg hc]
      simp only [Bool.false_eq_true, false_iff]
      intro hcon
      exact hc ⟨hcon.2.2.1, hcon.2.2.2⟩
  · have h := (init_foldl_untouched (List.range' 1 SIGRTMAX) (init_pre rfd wfd st) s hmem).1
    rw [h, hign]
    simp only [Bool.false_eq_true, false_iff]
    intro hcon
    exact hmem ((mem_init_range s).mpr ⟨hcon.1, hcon.2.1⟩)

theorem signal_handler_init_dfl (rfd wfd : Int) (st : SigState) (s : Nat) :
    (signal_handler_init rfd wfd st).dfl_sig s = true ↔
      (1 ≤ s ∧ s ≤ SIGRTMAX ∧ sset_member s = true ∧ st.os_disp s ≠ Disp.ign) := by
  rw [signal_handler_init_eq]
  have hdisp : (init_pre rfd wfd st).os_disp s = st.os_disp s := rfl
  have hdfl : (init_pre rfd wfd st).dfl_sig s = false := rfl
  by_cases hmem : s ∈ List.range' 1 SIGRTMAX
  · have h := (init_foldl_at (List.range' 1 SIGRTMAX) (init_pre rfd wfd st) s hmem
      nodup_init_range).2.1
    rw [h, hdisp, hdfl]
    have hb := (mem_init_range s).mp hmem
    by_cases hc : sset_member s = true ∧ st.os_disp s ≠ Disp.ign
    · rw [if_pos hc]
      simp only [true_iff]
      exact ⟨hb.1, hb.2, hc.1, hc.2⟩
    · rw [if_neg hc]
      simp only [Bool.false_eq_true, false_iff]
      intro hcon
      exact hc ⟨hcon.2.2.1, hcon.2.2.2⟩
  · have h := (init_foldl_untouched (List.range' 1 SIGRTMAX) (init_pre rfd wfd st) s hmem).2.1
    rw [h, hdfl]
    simp only [Bool.false_eq_true, false_iff]
    intro hcon
    exact hmem ((mem_init_range s).mpr ⟨hcon.1, hcon.2.1⟩)

theorem signal_handler_init_disp (rfd wfd : Int) (st : SigState) (s : Nat) :
    (signal_handler_init rfd wfd st).os_disp s =
      if 1 ≤ s ∧ s ≤ SIGRTMAX ∧ sset_member s = true ∧ st.os_disp s ≠ Disp.ign
      then Disp.ign else st.os_disp s := by
  rw [signal_handler_init_eq]
  have hdisp : (init_pre rfd wfd st).os_disp s = st.os_disp s := rfl
  by_cases hmem : s ∈ List.range' 1 SIGRTMAX
  · have h := (init_foldl_at (List.range' 1 SIGRTMAX) (init_pre rfd wfd st) s hmem
      nodup_init_range).2.2
    rw [h, hdisp]
    have hb := (mem_init_range s).mp hmem
    by_cases hc : sset_member s = true ∧ st.os_disp s ≠ Disp.ign
    · rw [if_pos hc, if_pos ⟨hb.1, hb.2, hc.1, hc.2⟩]
    · rw [if_neg hc, if_neg (fun hcon => hc ⟨hcon.2.2.1, hcon.2.2.2⟩)]
  · have h := (init_foldl_untouched (List.range' 1 SIGRTMAX) (init_pre rfd wfd st) s hmem).2.2
    rw [h, hdisp]
    have hn : ¬(1 ≤ s ∧ s ≤ SIGRTMAX ∧ sset_member s = true ∧ st.os_disp s ≠ Disp.ign) := by
      intro hcon
      exact hmem ((mem_init_range s).mpr ⟨hcon.1, hcon.2.1⟩)
    rw [if_neg hn]


/-! Characterization of `signal_handler_child_clear`, `signal_handler_destroy`,
`signal_pipe_close` and the deliver / dispatch pair. -/

theorem clear_addresses_funcs (st : SigState) (i : Nat) :
    (clear_signal_handler_addresses st).signal_handler_func i =
      if i < SIG_MAX then none else st.signal_handler_func i := rfl

theorem clear_addresses_pres (st : SigState) :
    (clear_signal_handler_addresses st).signal_v = st.signal_v ∧
    (clear_signal_handler_addresses st).parent_sig = st.parent_sig ∧
    (clear_signal_handler_addresses st).os_disp = st.os_disp :=
  ⟨rfl, rfl, rfl⟩

theorem open_pipe_pres (rfd wfd : Int) (st : SigState) :
    (open_signal_pipe rfd wfd st).signal_v = st.signal_v ∧
    (open_signal_pipe rfd wfd st).parent_sig = st.parent_sig ∧
    (open_signal_pipe rfd wfd st).os_disp = st.os_disp ∧
    (open_signal_pipe rfd wfd st).signal_handler_func = st.signal_handler_func :=
  ⟨rfl, rfl, rfl, rfl⟩

theorem child_clear_eq (rfd wfd : Int) (st : SigState) :
    signal_handler_child_clear rfd wfd st =
      clear_signal_handler_addresses (open_signal_pipe rfd wfd
        ((List.range' 1 SIGRTMAX).foldl child_clear_loop_body st)) := rfl

theorem child_clear_funcs (rfd wfd : Int) (st : SigState) (i : Nat) (h : i < SIG_MAX) :
    (signal_handler_child_clear rfd wfd st).signal_handler_func i = none := by
  rw [child_clear_eq, clear_addresses_funcs, if_pos h]

theorem child_clear_v (rfd wfd : Int) (st : SigState) :
    (signal_handler_child_clear rfd wfd st).signal_v = st.signal_v := by
  rw [child_clear_eq, (clear_addresses_pres _).1, (open_pipe_pres _ _ _).1,
    (child_foldl_pres (List.range' 1 SIGRTMAX) st).1]

theorem child_clear_parent (rfd wfd : Int) (st : SigState) :
    (signal_handler_child_clear rfd wfd st).parent_sig = st.parent_sig := by
  rw [child_clear_eq, (clear_addresses_pres _).2.1, (open_pipe_pres _ _ _).2.1,
    (child_foldl_pres (List.range' 1 SIGRTMAX) st).2]

theorem child_clear_disp (rfd wfd : Int) (st : SigState) (s : Nat) :
    (signal_handler_child_clear rfd wfd st).os_disp s =
      if 1 ≤ s ∧ s ≤ SIGRTMAX ∧ st.parent_sig s = true then Disp.ign else st.os_disp s := by
  rw [child_clear_eq, (clear_addresses_pres _).2.2, (open_pipe_pres _ _ _).2.2.1,
    child_foldl_disp]
  by_cases hmem : s ∈ List.range' 1 SIGRTMAX
  · have hb := (mem_init_range s).mp hmem
    by_cases hp : st.parent_sig s = true
    · rw [if_pos ⟨hmem, hp⟩, if_pos ⟨hb.1, hb.2, hp⟩]
    · rw [if_neg (fun hcon => hp hcon.2), if_neg (fun hcon => hp hcon.2.2)]
  · rw [if_neg (fun hcon => hmem hcon.1),
      if_neg (fun hcon => hmem ((mem_init_range s).mpr ⟨hcon.1, hcon.2.1⟩))]

theorem child_clear_pipe (rfd wfd : Int) (st : SigState) :
    (signal_handler_child_clear rfd wfd st).signal_pipe = (rfd, wfd) ∧
    (signal_handler_child_clear rfd wfd st).pipe_buf = [] ∧
    (signal_handler_child_clear rfd wfd st).pipe_nonblock = true ∧
    (signal_handler_child_clear rfd wfd st).pipe_cloexec = true :=
  ⟨rfl, rfl, rfl, rfl⟩

set_option maxRecDepth 4000 in
theorem destroy_pipe (st : SigState) :
    (signal_handler_destroy st).signal_pipe = (-1, -1) := rfl

set_option maxRecDepth 4000 in
theorem destroy_shc (st : SigState) :
    (signal_handler_destroy st).signal_handler_func =
      (signal_handlers_clear FuncArg.sig_ign st).signal_handler_func ∧
    (signal_handler_destroy st).os_disp = (signal_handlers_clear FuncArg.sig_ign st).os_disp ∧
    (signal_handler_destroy st).parent_sig =
      (signal_handlers_clear FuncArg.sig_ign st).parent_sig :=
  ⟨rfl, rfl, rfl⟩

set_option maxRecDepth 4000 in
theorem shc_frame (st : SigState) :
    (signal_handlers_clear FuncArg.sig_ign st).open_fds = st.open_fds ∧
    (signal_handlers_clear FuncArg.sig_ign st).signal_pipe = st.signal_pipe :=
  ⟨rfl, rfl⟩

set_option maxRecDepth 4000 in
theorem destroy_open_fds (st : SigState) (f : Int) :
    (signal_handler_destroy st).open_fds f =
      if f = st.signal_pipe.1 then false
      else if f = st.signal_pipe.2 then false
      else st.open_fds f := rfl


theorem close_fd_open (fd : Int) (st : SigState) (f : Int) :
    (close_fd fd st).open_fds f = if f = fd then false else st.open_fds f := rfl

theorem close_fd_pipe (fd : Int) (st : SigState) :
    (close_fd fd st).signal_pipe = st.signal_pipe := rfl

theorem signal_pipe_close_fds (min_fd : Int) (st : SigState) (f : Int) :
    (signal_pipe_close min_fd st).open_fds f =
      if (f = st.signal_pipe.1 ∧ st.signal_pipe.1 ≠ 0 ∧ st.signal_pipe.1 ≥ min_fd) ∨
         (f = st.signal_pipe.2 ∧ st.signal_pipe.2 ≠ 0 ∧ st.signal_pipe.2 ≥ min_fd)
      then false else st.open_fds f := by
  unfold signal_pipe_close
  dsimp only
  by_cases hA : st.signal_pipe.1 ≠ 0 ∧ st.signal_pipe.1 ≥ min_fd
  · rw [if_pos hA, close_fd_pipe]
    by_cases hB : st.signal_pipe.2 ≠ 0 ∧ st.signal_pipe.2 ≥ min_fd
    · rw [if_pos hB, close_fd_open, close_fd_open]
      by_cases h1 : f = st.signal_pipe.1 <;> by_cases h2 : f = st.signal_pipe.2 <;>
        simp [h1, h2, hA.1, hA.2, hB.1, hB.2]
    · rw [if_neg hB, close_fd_open]
      by_cases h1 : f = st.signal_pipe.1 <;> by_cases h2 : f = st.signal_pipe.2 <;>
        simp [h1, h2, hA.1, hA.2, hB]
  · rw [if_neg hA]
    by_cases hB : st.signal_pipe.2 ≠ 0 ∧ st.signal_pipe.2 ≥ min_fd
    · rw [if_pos hB, close_fd_open]
      by_cases h1 : f = st.signal_pipe.1 <;> by_cases h2 : f = st.signal_pipe.2 <;>
        simp [h1, h2, hA, hB.1, hB.2]
    · rw [if_neg hB]
      by_cases h1 : f = st.signal_pipe.1 <;> by_cases h2 : f = st.signal_pipe.2 <;>
        simp [h1, h2, hA, hB]

theorem deliver_k_buf (n : Int) (k : Nat) (st : SigState) :
    (deliver_k n k st).pipe_buf = st.pipe_buf ++ List.replicate k n := by
  induction k with
  | zero => simp [deliver_k]
  | succ k ih =>
    show (signal_handler n (deliver_k n k st)).pipe_buf = _
    unfold signal_handler
    simp only [ih, List.replicate_succ']
    rw [List.append_assoc]

theorem deliver_k_pres (n : Int) (k : Nat) (st : SigState) :
    (deliver_k n k st).signal_handler_func = st.signal_handler_func ∧
    (deliver_k n k st).signal_v = st.signal_v := by
  induction k with
  | zero => exact ⟨rfl, rfl⟩
  | succ k ih => exact ih

theorem run_callback_step_deliver (n : Int) (k : Nat) (st : SigState) :
    run_callback_step (deliver_k n k st) = run_callback_step st := by
  funext m
  unfold run_callback_step
  rw [(deliver_k_pres n k st).1, (deliver_k_pres n k st).2]

theorem filterMap_replicate (k : Nat) (a : Int) (g : Int → Option Invocation) :
    (List.replicate k a).filterMap g =
      match g a with
      | some b => List.replicate k b
      | none => [] := by
  induction k with
  | zero => cases h : g a <;> simp [h]
  | succ k ih => cases h : g a <;> simp_all [List.replicate_succ, List.filterMap_cons, h]

/-! Preservation of the registration-table invariant. -/

theorem state_ok_signal_set (signo : Int) (f : FuncArg) (v : Option VoidPtr) (st : SigState)
    (h : StateOk st) : StateOk ((signal_set signo f v false st).2) := by
  by_cases hr : signo < 1 ∨ signo > (SIG_MAX : Int)
  · rw [signal_set_out_of_range signo f v false st hr]
    exact h
  · push_neg at hr
    obtain ⟨h1, h2⟩ := hr
    cases f with
    | handler cb =>
      rw [signal_set_handler_ok signo cb v st h1 h2]
      constructor
      · intro s hle hs1
        dsimp only
        by_cases he : s = signo.toNat
        · rw [if_pos (by omega : s - 1 = signo.toNat - 1), if_pos he]
          simp
        · rw [if_neg (by omega : ¬s - 1 = signo.toNat - 1), if_neg he]
          exact h.1 s hle hs1
      · intro s hle hs1
        dsimp only
        by_cases he : s = signo.toNat
        · rw [if_pos he]
          intro _
          rfl
        · rw [if_neg (by omega : ¬s - 1 = signo.toNat - 1), if_neg he]
          exact h.2 s hle hs1
    | sig_ign =>
      rw [signal_set_ign_ok signo v st h1 h2]
      constructor
      · intro s hle hs1
        dsimp only
        by_cases he : s = signo.toNat
        · rw [if_pos (by omega : s - 1 = signo.toNat - 1), if_pos he]
          simp
        · rw [if_neg (by omega : ¬s - 1 = signo.toNat - 1), if_neg he]
          exact h.1 s hle hs1
      · intro s hle hs1
        dsimp only
        by_cases he : s = signo.toNat
        · rw [if_pos (by omega : s - 1 = signo.toNat - 1)]
          intro hsome
          simp at hsome
        · rw [if_neg (by omega : ¬s - 1 = signo.toNat - 1)]
          exact h.2 s hle hs1
    | sig_dfl =>
      rw [signal_set_dfl_ok signo v st h1 h2]
      constructor
      · intro s hle hs1
        dsimp only
        by_cases he : s = signo.toNat
        · rw [if_pos (by omega : s - 1 = signo.toNat - 1), if_pos he]
          simp
        · rw [if_neg (by omega : ¬s - 1 = signo.toNat - 1), if_neg he]
          exact h.1 s hle hs1
      · intro s hle hs1
        dsimp only
        by_cases he : s = signo.toNat
        · rw [if_pos (by omega : s - 1 = signo.toNat - 1)]
          intro hsome
          simp at hsome
        · rw [if_neg (by omega : ¬s - 1 = signo.toNat - 1)]
          exact h.2 s hle hs1

theorem state_ok_child_clear (rfd wfd : Int) (st : SigState) (h : StateOk st) :
    StateOk (signal_handler_child_clear rfd wfd st) := by
  constructor
  · intro s hle hs1
    rw [child_clear_funcs rfd wfd st (s - 1) (by omega)]
    simp only [Option.isSome_none, Bool.false_eq_true, false_iff]
    intro hd
    rw [child_clear_disp] at hd
    by_cases hc : 1 ≤ s ∧ s ≤ SIGRTMAX ∧ st.parent_sig s = true
    · rw [if_pos hc] at hd
      exact absurd hd (by decide)
    · rw [if_neg hc] at hd
      have hsome := (h.1 s hle hs1).mpr hd
      have hp := h.2 s hle hs1 hsome
      have hsr : s ≤ SIGRTMAX := le_trans hle (by decide)
      exact hc ⟨hs1, hsr, hp⟩
  · intro s hle hs1 hsome
    rw [child_clear_funcs rfd wfd st (s - 1) (by omega)] at hsome
    simp at hsome

theorem state_ok_init (rfd wfd : Int) (st : SigState)
    (h : ∀ s, s ≤ SIG_MAX → 1 ≤ s → st.os_disp s ≠ Disp.trampoline) :
    StateOk (signal_handler_init rfd wfd st) := by
  constructor
  · intro s hle hs1
    rw [signal_handler_init_funcs rfd wfd st (s - 1), if_pos (by omega : s - 1 < SIG_MAX)]
    simp only [Option.isSome_none, Bool.false_eq_true, false_iff]
    intro hd
    rw [signal_handler_init_disp] at hd
    by_cases hc : 1 ≤ s ∧ s ≤ SIGRTMAX ∧ sset_member s = true ∧ st.os_disp s ≠ Disp.ign
    · rw [if_pos hc] at hd
      exact absurd hd (by decide)
    · rw [if_neg hc] at hd
      exact h s hle hs1 hd
  · intro s hle hs1 hsome
    rw [signal_handler_init_funcs rfd wfd st (s - 1), if_pos (by omega : s - 1 < SIG_MAX)]
      at hsome
    simp at hsome

theorem state_ok_shc (st : SigState) (h : StateOk st) :
    StateOk (signal_handlers_clear FuncArg.sig_ign st) := by
  unfold signal_handlers_clear
  exact state_ok_signal_set _ _ _ _ (state_ok_signal_set _ _ _ _ (state_ok_signal_set _ _ _ _
    (state_ok_signal_set _ _ _ _ (state_ok_signal_set _ _ _ _
      (state_ok_signal_set _ _ _ _ h)))))

theorem state_ok_destroy (st : SigState) (h : StateOk st) :
    StateOk (signal_handler_destroy st) := by
  have h2 := state_ok_shc st h
  constructor
  · intro s hle hs1
    rw [(destroy_shc st).1, (destroy_shc st).2.1]
    exact h2.1 s hle hs1
  · intro s hle hs1
    rw [(destroy_shc st).1, (destroy_shc st).2.2]
    exact h2.2 s hle hs1

theorem state_ok_run_sys_op (st : SigState) (op : SysOp) (h : StateOk st) :
    StateOk (run_sys_op st op) := by
  cases op with
  | set signo f v => exact state_ok_signal_set signo f v st h
  | ignore signo => exact state_ok_signal_set signo FuncArg.sig_ign none st h
  | child_clear rfd wfd => exact state_ok_child_clear rfd wfd st h
  | destroy => exact state_ok_destroy st h

theorem state_ok_foldl (ops : List SysOp) (st : SigState) (h : StateOk st) :
    StateOk (ops.foldl run_sys_op st) := by
  induction ops generalizing st with
  | nil => exact h
  | cons op t ih =>
    rw [List.foldl_cons]
    exact ih (run_sys_op st op) (state_ok_run_sys_op st op h)

theorem run_reg_op_sets (st : SigState) (op : RegOp) :
    (run_reg_op st op).ign_sig = st.ign_sig ∧ (run_reg_op st op).dfl_sig = st.dfl_sig := by
  cases op with
  | set signo f v fl => exact signal_set_sets_frame signo f v fl st
  | ignore signo fl => exact signal_set_sets_frame signo FuncArg.sig_ign none fl st

theorem reg_foldl_sets (ops : List RegOp) (st : SigState) :
    (ops.foldl run_reg_op st).ign_sig = st.ign_sig ∧
    (ops.foldl run_reg_op st).dfl_sig = st.dfl_sig := by
  induction ops generalizing st with
  | nil => exact ⟨rfl, rfl⟩
  | cons op t ih =>
    rw [List.foldl_cons]
    exact ⟨(ih (run_reg_op st op)).1.trans (run_reg_op_sets st op).1,
           (ih (run_reg_op st op)).2.trans (run_reg_op_sets st op).2⟩

theorem signal_handler_script_disp (st : SigState) (s : Nat) :
    (signal_handler_script st).os_disp s =
      if 1 ≤ s ∧ s ≤ SIGRTMAX then
        (if st.ign_sig s = true then Disp.ign
         else if st.dfl_sig s = true then Disp.dfl else st.os_disp s)
      else st.os_disp s := by
  unfold signal_handler_script
  rw [script_foldl_disp]
  by_cases hmem : s ∈ List.range' 1 SIGRTMAX
  · rw [if_pos hmem, if_pos ((mem_init_range s).mp hmem)]
  · rw [if_neg hmem, if_neg (fun hc => hmem ((mem_init_range s).mpr hc))]

/-! The claims. -/

/-- C1: delivering signal n k times before dispatch runs yields exactly k
invocations of the registered callback, each with the stored context and n,
in pipe FIFO order without coalescing; out-of-range numbers or numbers with
a null registered callback produce no invocation; dispatch drains the pipe. -/
theorem claim_C1 (n : Int) (k : Nat) (st : SigState) :
    ((signal_run_callback (deliver_k n k st)).1 =
      (signal_run_callback st).1 ++
        (match run_callback_step st n with
         | some inv => List.replicate k inv
         | none => [])) ∧
    (∀ cb, 1 ≤ n → n ≤ (SIG_MAX : Int) →
      st.signal_handler_func (n.toNat - 1) = some cb →
      run_callback_step st n = some ⟨cb, st.signal_v (n.toNat - 1), n⟩) ∧
    ((¬(1 ≤ n ∧ n ≤ (SIG_MAX : Int)) ∨ st.signal_handler_func (n.toNat - 1) = none) →
      run_callback_step st n = none) ∧
    (signal_run_callback (deliver_k n k st)).2.pipe_buf = [] := by
  refine ⟨?_, ?_, ?_, rfl⟩
  · show (deliver_k n k st).pipe_buf.filterMap (run_callback_step (deliver_k n k st)) = _
    rw [run_callback_step_deliver, deliver_k_buf, List.filterMap_append, filterMap_replicate]
    rfl
  · intro cb hn1 hn2 hf
    unfold run_callback_step
    rw [if_pos ⟨hn1, hn2⟩, hf]
  · intro hc
    unfold run_callback_step
    rcases hc with hc | hc
    · rw [if_neg hc]
    · by_cases hr : 1 ≤ n ∧ n ≤ (SIG_MAX : Int)
      · rw [if_pos hr, hc]
      · rw [if_neg hr]

/-- Witness for C1 at a concrete state: callback 2 with context 9 registered
for signal 5, delivered 3 times. -/
theorem claim_C1_witness :
    run_callback_step reg_state 5 = some ⟨2, some 9, 5⟩ ∧
    (signal_run_callback (deliver_k 5 3 reg_state)).1 =
      (signal_run_callback reg_state).1 ++ List.replicate 3 ⟨2, some 9, 5⟩ ∧
    (signal_run_callback (deliver_k 5 3 reg_state)).2.pipe_buf = [] := by
  have h := claim_C1 5 3 reg_state
  have hstep := h.2.1 2 (by decide) (by decide) (by decide)
  refine ⟨hstep, ?_, h.2.2.2⟩
  rw [h.1, hstep]
  rfl

/-- C2 counterexample: when sigaction fails on the active-handler path,
signal_set returns SIG_ERR with the signal still blocked (the SIG_UNBLOCK
on lines 194-195 is skipped by the early return on lines 190-191). -/
theorem claim_C2_cex :
    (signal_set 5 (FuncArg.handler 1) (some 7) true initial_state).1 = SetResult.sig_err ∧
    (signal_set 5 (FuncArg.handler 1) (some 7) true initial_state).2.blocked 5 = true := by
  decide

/-- C2 amended: for a valid signal and a non-sentinel callback, signal_set
masks exactly that signal, and on the success path unmasks it before
returning; on the sigaction-failure path it returns with the signal still
blocked. The mask of every other signal is unchanged on both paths. -/
theorem claim_C2_amended (signo : Int) (cb : Callback) (v : Option VoidPtr) (st : SigState)
    (h1 : 1 ≤ signo) (h2 : signo ≤ (SIG_MAX : Int)) :
    ((signal_set signo (FuncArg.handler cb) v false st).2.blocked signo.toNat = false ∧
     (∀ s, s ≠ signo.toNat →
       (signal_set signo (FuncArg.handler cb) v false st).2.blocked s = st.blocked s)) ∧
    ((signal_set signo (FuncArg.handler cb) v true st).2.blocked signo.toNat = true ∧
     (∀ s, s ≠ signo.toNat →
       (signal_set signo (FuncArg.handler cb) v true st).2.blocked s = st.blocked s)) := by
  rw [signal_set_handler_ok signo cb v st h1 h2, signal_set_handler_err signo cb v st h1 h2]
  refine ⟨⟨by dsimp only; rw [if_pos rfl], fun s hs => by dsimp only; rw [if_neg hs, if_neg hs]⟩,
          ⟨by dsimp only; rw [if_pos rfl], fun s hs => by dsimp only; rw [if_neg hs]⟩⟩

/-- Witness for the amended C2 at signal 5 from the pristine state. -/
theorem claim_C2_witness :
    (1 : Int) ≤ 5 ∧ (5 : Int) ≤ (SIG_MAX : Int) ∧
    (signal_set 5 (FuncArg.handler 1) (some 7) false initial_state).2.blocked 5 = false ∧
    (signal_set 5 (FuncArg.handler 1) (some 7) true initial_state).2.blocked 5 = true :=
  ⟨by decide, by decide,
   (claim_C2_amended 5 1 (some 7) initial_state (by decide) (by decide)).1.1,
   (claim_C2_amended 5 1 (some 7) initial_state (by decide) (by decide)).2.1⟩

set_option maxRecDepth 8000 in
/-- C3 counterexample: the invariant "slot callback non-null iff disposition
is the trampoline" holds after init but is broken by a signal_set whose
sigaction call fails, because the table is updated regardless (lines
187-188) while the OS disposition is not. -/
theorem claim_C3_cex :
    TableInvariant c3_base ∧
    ¬ TableInvariant (signal_set 5 (FuncArg.handler 1) (some 7) true c3_base).2 := by
  constructor
  · unfold TableInvariant
    decide
  · intro hInv
    have h5 := hInv 5 (by decide) (by decide)
    revert h5
    decide

/-- C3 amended: starting from a state whose OS dispositions do not already
point at the trampoline, after signal_handler_init and any sequence of
signal_set / signal_ignore / signal_handler_child_clear /
signal_handler_destroy operations in which every underlying sigaction call
succeeds, the registration-table invariant holds: a slot's callback is
non-null iff the signal's OS disposition is the trampoline. -/
theorem claim_C3_amended (st : SigState) (rfd wfd : Int) (ops : List SysOp)
    (h : ∀ s, s ≤ SIG_MAX → 1 ≤ s → st.os_disp s ≠ Disp.trampoline) :
    TableInvariant (ops.foldl run_sys_op (signal_handler_init rfd wfd st)) :=
  (state_ok_foldl ops _ (state_ok_init rfd wfd st h)).1

/-- Witness for the amended C3: init from the pristine state followed by a
successful handler installation for SIGHUP. -/
theorem claim_C3_witness :
    (∀ s, s ≤ SIG_MAX → 1 ≤ s → initial_state.os_disp s ≠ Disp.trampoline) ∧
    TableInvariant ([SysOp.set 1 (FuncArg.handler 2) (some 3)].foldl run_sys_op
      (signal_handler_init 3 4 initial_state)) :=
  ⟨fun s _ _ => by simp [initial_state],
   claim_C3_amended initial_state 3 4 [SysOp.set 1 (FuncArg.handler 2) (some 3)]
     (fun s _ _ => by simp [initial_state])⟩

/-- C4: for every signal number outside [1, SIG_MAX], signal_set returns the
NULL failure sentinel and the whole state — registration table, parent set,
dispositions, pipe — is unchanged. -/
theorem claim_C4 (signo : Int) (f : FuncArg) (v : Option VoidPtr) (fails : Bool)
    (st : SigState) (h : signo < 1 ∨ signo > (SIG_MAX : Int)) :
    signal_set signo f v fails st = (SetResult.null, st) :=
  signal_set_out_of_range signo f v fails st h

/-- Witness for C4 at signal numbers 0 (below range) and 18 (above range). -/
theorem claim_C4_witness :
    ((0 : Int) < 1 ∨ (0 : Int) > (SIG_MAX : Int)) ∧
    signal_set 0 (FuncArg.handler 1) (some 2) false initial_state =
      (SetResult.null, initial_state) ∧
    ((18 : Int) < 1 ∨ (18 : Int) > (SIG_MAX : Int)) ∧
    signal_set 18 FuncArg.sig_ign none true initial_state = (SetResult.null, initial_state) :=
  ⟨Or.inl (by decide), claim_C4 0 (FuncArg.handler 1) (some 2) false initial_state
      (Or.inl (by decide)),
   Or.inr (by decide), claim_C4 18 FuncArg.sig_ign none true initial_state
      (Or.inr (by decide))⟩

theorem sset_member_false_iff (sig : Nat) :
    sset_member sig = false ↔
      (sig = SIGILL ∨ sig = SIGFPE ∨ sig = SIGSEGV ∨ sig = SIGBUS ∨ sig = SIGKILL ∨
       sig = SIGSTOP) := by
  simp [sset_member]
  tauto

/-- C5: signal_handler_init, for every signal 1..SIGRTMAX except exactly
SIGILL, SIGFPE, SIGSEGV, SIGBUS, SIGKILL and SIGSTOP, records the signal in
ign_sig and leaves its disposition unchanged when its original disposition
was ignore, and otherwise forces the disposition to ignore and records the
signal in dfl_sig; the six excluded signals land in neither set and keep
their dispositions, and the two sets are disjoint. -/
theorem claim_C5 (rfd wfd : Int) (st : SigState) (sig : Nat)
    (hlo : 1 ≤ sig) (hhi : sig ≤ SIGRTMAX) :
    ((sig = SIGILL ∨ sig = SIGFPE ∨ sig = SIGSEGV ∨ sig = SIGBUS ∨ sig = SIGKILL ∨
        sig = SIGSTOP) →
      (signal_handler_init rfd wfd st).ign_sig sig = false ∧
      (signal_handler_init rfd wfd st).dfl_sig sig = false ∧
      (signal_handler_init rfd wfd st).os_disp sig = st.os_disp sig) ∧
    (¬(sig = SIGILL ∨ sig = SIGFPE ∨ sig = SIGSEGV ∨ sig = SIGBUS ∨ sig = SIGKILL ∨
        sig = SIGSTOP) → st.os_disp sig = Disp.ign →
      (signal_handler_init rfd wfd st).ign_sig sig = true ∧
      (signal_handler_init rfd wfd st).dfl_sig sig = false ∧
      (signal_handler_init rfd wfd st).os_disp sig = st.os_disp sig) ∧
    (¬(sig = SIGILL ∨ sig = SIGFPE ∨ sig = SIGSEGV ∨ sig = SIGBUS ∨ sig = SIGKILL ∨
        sig = SIGSTOP) → st.os_disp sig ≠ Disp.ign →
      (signal_handler_init rfd wfd st).os_disp sig = Disp.ign ∧
      (signal_handler_init rfd wfd st).dfl_sig sig = true ∧
      (signal_handler_init rfd wfd st).ign_sig sig = false) ∧
    ¬((signal_handler_init rfd wfd st).ign_sig sig = true ∧
      (signal_handler_init rfd wfd st).dfl_sig sig = true) := by
  refine ⟨?_, ?_, ?_, ?_⟩
  · intro hsix
    have hm : sset_member sig = false := (sset_member_false_iff sig).mpr hsix
    have hni : ∀ d : Disp,
        ¬(1 ≤ sig ∧ sig ≤ SIGRTMAX ∧ sset_member sig = true ∧ st.os_disp sig = d) := by
      intro d hc
      rw [hc.2.2.1] at hm
      cases hm
    have hni2 : ¬(1 ≤ sig ∧ sig ≤ SIGRTMAX ∧ sset_member sig = true ∧
        st.os_disp sig ≠ Disp.ign) := by
      intro hc
      rw [hc.2.2.1] at hm
      cases hm
    refine ⟨?_, ?_, ?_⟩
    · rw [Bool.eq_false_iff]
      intro hcon
      exact hni Disp.ign ((signal_handler_init_ign rfd wfd st sig).mp hcon)
    · rw [Bool.eq_false_iff]
      intro hcon
      exact hni2 ((signal_handler_init_dfl rfd wfd st sig).mp hcon)
    · rw [signal_handler_init_disp, if_neg hni2]
  · intro hsix hd
    have hm : sset_member sig = true := by
      cases hmb : sset_member sig
      · exact absurd ((sset_member_false_iff sig).mp hmb) hsix
      · rfl
    refine ⟨(signal_handler_init_ign rfd wfd st sig).mpr ⟨hlo, hhi, hm, hd⟩, ?_, ?_⟩
    · rw [Bool.eq_false_iff]
      intro hcon
      exact ((signal_handler_init_dfl rfd wfd st sig).mp hcon).2.2.2 hd
    · rw [signal_handler_init_disp, if_neg (fun hc => hc.2.2.2 hd)]
  · intro hsix hd
    have hm : sset_member sig = true := by
      cases hmb : sset_member sig
      · exact absurd ((sset_member_false_iff sig).mp hmb) hsix
      · rfl
    refine ⟨?_, (signal_handler_init_dfl rfd wfd st sig).mpr ⟨hlo, hhi, hm, hd⟩, ?_⟩
    · rw [signal_handler_init_disp, if_pos ⟨hlo, hhi, hm, hd⟩]
    · rw [Bool.eq_false_iff]
      intro hcon
      exact hd ((signal_handler_init_ign rfd wfd st sig).mp hcon).2.2.2
  · rintro ⟨hi, hdl⟩
    exact ((signal_handler_init_dfl rfd wfd st sig).mp hdl).2.2.2
      ((signal_handler_init_ign rfd wfd st sig).mp hi).2.2.2

set_option maxRecDepth 8000 in
/-- Witness for C5: SIGILL is excluded — after init from the pristine state
it is in neither set and its disposition is untouched. -/
theorem claim_C5_witness :
    1 ≤ SIGILL ∧ SIGILL ≤ SIGRTMAX ∧
    ((signal_handler_init 3 4 initial_state).ign_sig SIGILL = false ∧
     (signal_handler_init 3 4 initial_state).dfl_sig SIGILL = false ∧
     (signal_handler_init 3 4 initial_state).os_disp SIGILL =
       initial_state.os_disp SIGILL) :=
  ⟨by decide, by decide,
   (claim_C5 3 4 initial_state SIGILL (by decide) (by decide)).1 (Or.inl rfl)⟩

/-- C6: after init and any sequence of install / ignore calls,
signal_handler_script puts every signal of ign_sig back to ignore and every
signal of dfl_sig back to default — the disposition recorded at init time. -/
theorem claim_C6 (rfd wfd : Int) (st : SigState) (ops : List RegOp) (sig : Nat) :
    ((signal_handler_init rfd wfd st).ign_sig sig = true →
      (signal_handler_script (ops.foldl run_reg_op
        (signal_handler_init rfd wfd st))).os_disp sig = Disp.ign) ∧
    ((signal_handler_init rfd wfd st).dfl_sig sig = true →
      (signal_handler_script (ops.foldl run_reg_op
        (signal_handler_init rfd wfd st))).os_disp sig = Disp.dfl) := by
  have hsets := reg_foldl_sets ops (signal_handler_init rfd wfd st)
  constructor
  · intro hig
    have hb := (signal_handler_init_ign rfd wfd st sig).mp hig
    rw [signal_handler_script_disp, hsets.1, hig, if_pos ⟨hb.1, hb.2.1⟩, if_pos rfl]
  · intro hdl
    have hb := (signal_handler_init_dfl rfd wfd st sig).mp hdl
    have hig : (signal_handler_init rfd wfd st).ign_sig sig = false := by
      rw [Bool.eq_false_iff]
      intro hcon
      exact hb.2.2.2 ((signal_handler_init_ign rfd wfd st sig).mp hcon).2.2.2
    rw [signal_handler_script_disp, hsets.1, hsets.2, hig, hdl, if_pos ⟨hb.1, hb.2.1⟩,
      if_neg (by simp), if_pos rfl]

set_option maxRecDepth 8000 in
/-- Witness for C6: SIGHUP is captured in dfl_sig at init from the pristine
state; after installing a handler for it, script restores default. -/
theorem claim_C6_witness :
    (signal_handler_init 3 4 initial_state).dfl_sig SIGHUP = true ∧
    (signal_handler_script ([RegOp.set 1 (FuncArg.handler 5) (some 3) false].foldl run_reg_op
      (signal_handler_init 3 4 initial_state))).os_disp SIGHUP = Disp.dfl :=
  ⟨by decide,
   (claim_C6 3 4 initial_state [RegOp.set 1 (FuncArg.handler 5) (some 3) false] SIGHUP).2
     (by decide)⟩

set_option maxRecDepth 8000 in
/-- C7 counterexample: clear_signal_handler_addresses (lines 207-214) nulls
only signal_handler_func, never signal_v, so after
signal_handler_child_clear the context stored for signal 3 is still there. -/
theorem claim_C7_cex :
    ¬ ∀ i, i < SIG_MAX → (signal_handler_child_clear 5 6 stale_ctx_state).signal_v i = none := by
  intro h
  have h2 := h 2 (by decide)
  revert h2
  decide

/-- C7 amended: signal_handler_child_clear sets the disposition of every
signal in parent_sig to ignore, opens a fresh non-blocking close-on-exec
pipe, and nulls every slot's callback; the stored context pointers are left
unchanged (stale contexts remain, though unreachable because the callbacks
are null). -/
theorem claim_C7_amended (rfd wfd : Int) (st : SigState) :
    (∀ sig, 1 ≤ sig → sig ≤ SIGRTMAX → st.parent_sig sig = true →
      (signal_handler_child_clear rfd wfd st).os_disp sig = Disp.ign) ∧
    (signal_handler_child_clear rfd wfd st).signal_pipe = (rfd, wfd) ∧
    (signal_handler_child_clear rfd wfd st).pipe_nonblock = true ∧
    (signal_handler_child_clear rfd wfd st).pipe_cloexec = true ∧
    (signal_handler_child_clear rfd wfd st).pipe_buf = [] ∧
    (∀ i, i < SIG_MAX → (signal_handler_child_clear rfd wfd st).signal_handler_func i = none) ∧
    (signal_handler_child_clear rfd wfd st).signal_v = st.signal_v := by
  refine ⟨fun sig h1 h2 hp => ?_, (child_clear_pipe rfd wfd st).1,
    (child_clear_pipe rfd wfd st).2.2.1, (child_clear_pipe rfd wfd st).2.2.2,
    (child_clear_pipe rfd wfd st).2.1, fun i hi => child_clear_funcs rfd wfd st i hi,
    child_clear_v rfd wfd st⟩
  rw [child_clear_disp, if_pos ⟨h1, h2, hp⟩]

set_option maxRecDepth 8000 in
/-- Witness for the amended C7: signal 3 was parent-installed; child-clear
ignores it, clears its callback slot, and keeps its stale context. -/
theorem claim_C7_witness :
    stale_ctx_state.parent_sig 3 = true ∧
    (signal_handler_child_clear 5 6 stale_ctx_state).os_disp 3 = Disp.ign ∧
    (signal_handler_child_clear 5 6 stale_ctx_state).signal_v = stale_ctx_state.signal_v :=
  ⟨by decide,
   (claim_C7_amended 5 6 stale_ctx_state).1 3 (by decide) (by decide) (by decide),
   (claim_C7_amended 5 6 stale_ctx_state).2.2.2.2.2.2⟩

/-- C8: signal_handler_destroy is idempotent on descriptor state: after one
call both pipe slots hold the -1 sentinel, and a second call changes the set
of open descriptors not at all (its close calls target -1, which is never a
live descriptor). -/
theorem claim_C8 (st : SigState) (h : st.open_fds (-1) = false) :
    (signal_handler_destroy st).signal_pipe = (-1, -1) ∧
    (signal_handler_destroy (signal_handler_destroy st)).signal_pipe = (-1, -1) ∧
    ∀ f, (signal_handler_destroy (signal_handler_destroy st)).open_fds f =
      (signal_handler_destroy st).open_fds f := by
  refine ⟨destroy_pipe st, destroy_pipe _, fun f => ?_⟩
  rw [destroy_open_fds (signal_handler_destroy st) f, destroy_pipe st]
  dsimp only
  by_cases hf : f = (-1 : Int)
  · subst hf
    rw [if_pos rfl, destroy_open_fds st (-1)]
    split
    · rfl
    · split
      · rfl
      · exact h.symm
  · rw [if_neg hf, if_neg hf]

set_option maxRecDepth 4000 in
/-- Witness for C8 from the pristine state. -/
theorem claim_C8_witness :
    initial_state.open_fds (-1) = false ∧
    (signal_handler_destroy initial_state).signal_pipe = (-1, -1) ∧
    (signal_handler_destroy (signal_handler_destroy initial_state)).open_fds 0 =
      (signal_handler_destroy initial_state).open_fds 0 :=
  ⟨rfl, (claim_C8 initial_state rfl).1, (claim_C8 initial_state rfl).2.2 0⟩

/-- C9 counterexample: a pipe descriptor whose numeric value is 0 is at or
above the threshold 0, yet signal_pipe_close leaves it open, because of the
C truthiness test `if (signal_pipe[0] && ...)`. -/
theorem claim_C9_cex :
    zero_fd_state.open_fds 0 = true ∧
    zero_fd_state.signal_pipe.1 = 0 ∧
    ((0 : Int) ≥ (0 : Int)) ∧
    (signal_pipe_close 0 zero_fd_state).open_fds 0 = true := by
  decide

/-- C9 amended: signal_pipe_close closes each of the two pipe descriptors
iff that descriptor's numeric value is nonzero and at or above min_fd; all
other descriptors are untouched. -/
theorem claim_C9_amended (min_fd : Int) (st : SigState) (f : Int) :
    (signal_pipe_close min_fd st).open_fds f =
      if (f = st.signal_pipe.1 ∧ st.signal_pipe.1 ≠ 0 ∧ st.signal_pipe.1 ≥ min_fd) ∨
         (f = st.signal_pipe.2 ∧ st.signal_pipe.2 ≠ 0 ∧ st.signal_pipe.2 ≥ min_fd)
      then false else st.open_fds f :=
  signal_pipe_close_fds min_fd st f

/-- C10: when sigaction fails on a valid signal number, signal_set still
overwrites the slot with the (cleared) callback and context derived from its
argument, and on the active-handler path has already added the signal to
parent_sig, before returning SIG_ERR. -/
theorem claim_C10 (signo : Int) (f : FuncArg) (v : Option VoidPtr) (st : SigState)
    (h1 : 1 ≤ signo) (h2 : signo ≤ (SIG_MAX : Int)) :
    (signal_set signo f v true st).1 = SetResult.sig_err ∧
    (signal_set signo f v true st).2.signal_handler_func (signo.toNat - 1) = funcArg_func f ∧
    (signal_set signo f v true st).2.signal_v (signo.toNat - 1) = funcArg_v f v ∧
    (∀ cb, f = FuncArg.handler cb →
      (signal_set signo f v true st).2.parent_sig signo.toNat = true) := by
  cases f with
  | handler cb =>
    rw [signal_set_handler_err signo cb v st h1 h2]
    exact ⟨rfl, by dsimp only; rw [if_pos rfl]; rfl, by dsimp only; rw [if_pos rfl]; rfl,
      fun cb2 hcb => by dsimp only; rw [if_pos rfl]⟩
  | sig_ign =>
    rw [signal_set_ign_err signo v st h1 h2]
    exact ⟨rfl, by dsimp only; rw [if_pos rfl]; rfl, by dsimp only; rw [if_pos rfl]; rfl,
      fun cb2 hcb => by cases hcb⟩
  | sig_dfl =>
    rw [signal_set_dfl_err signo v st h1 h2]
    exact ⟨rfl, by dsimp only; rw [if_pos rfl]; rfl, by dsimp only; rw [if_pos rfl]; rfl,
      fun cb2 hcb => by cases hcb⟩

/-- Witness for C10: failing sigaction for a handler on signal 5 from the
pristine state. -/
theorem claim_C10_witness :
    (1 : Int) ≤ 5 ∧ (5 : Int) ≤ (SIG_MAX : Int) ∧
    (signal_set 5 (FuncArg.handler 1) (some 7) true initial_state).1 = SetResult.sig_err ∧
    (signal_set 5 (FuncArg.handler 1) (some 7) true initial_state).2.signal_handler_func 4 =
      some 1 ∧
    (signal_set 5 (FuncArg.handler 1) (some 7) true initial_state).2.parent_sig 5 = true :=
  ⟨by decide, by decide,
   (claim_C10 5 (FuncArg.handler 1) (some 7) initial_state (by decide) (by decide)).1,
   (claim_C10 5 (FuncArg.handler 1) (some 7) initial_state (by decide) (by decide)).2.1,
   (claim_C10 5 (FuncArg.handler 1) (some 7) initial_state (by decide) (by decide)).2.2.2 1
     rfl⟩

end Signals
